import Mathlib

/-!
Verification of the Spatial Correlation & Risk Scoring Engine
(UNESCO heritage-site risk modeling).

Shallow embedding of the scoring pipeline:
* `config/settings.py` — weights, risk bins, isolation-forest parameters;
* `src/analysis/risk_scoring.py` — weight validation, log1p + min-max
  normalization, composite aggregation, risk-level binning, run ordering;
* `src/analysis/anomaly_detection.py` — anomaly pass and its frame effect;
* `src/etl/spatial_join.py` — CRS validation self-check.

Machine floats are modelled by exact rationals where the code only does
field arithmetic and comparisons, and by real numbers where the code uses
transcendental functions (log1p, powers of ten).  Missing values (NaN) are
modelled as `Option` with `none` for NaN; `pandas.fillna(0)` becomes
`Option.getD 0`.
-/

namespace UnescoRisk

/-- The four ordinal risk labels of `RISK_LABELS` in `config/settings.py`. -/
inductive RiskLevel where
  | low
  | medium
  | high
  | critical
deriving DecidableEq, Repr

/-- The six-entry weight mapping `RISK_WEIGHTS` of `config/settings.py`;
`validate_weights` and `compute_composite_score` access exactly these keys. -/
structure RiskWeights where
  urban_density : ℚ
  climate_anomaly : ℚ
  seismic_risk : ℚ
  fire_risk : ℚ
  flood_risk : ℚ
  coastal_risk : ℚ
deriving DecidableEq, Repr

/-- `RISK_WEIGHTS` from `config/settings.py`. -/
def RISK_WEIGHTS : RiskWeights :=
  { urban_density := 25/100
    climate_anomaly := 20/100
    seismic_risk := 20/100
    fire_risk := 15/100
    flood_risk := 10/100
    coastal_risk := 10/100 }

/-- `sum(weights.values())` in `validate_weights`. -/
def RiskWeights.total (w : RiskWeights) : ℚ :=
  w.urban_density + w.climate_anomaly + w.seismic_risk +
    w.fire_risk + w.flood_risk + w.coastal_risk

/-- `np.isclose(a, b, rtol, atol)`: true iff `|a - b| <= atol + rtol * |b|`.
The call in `validate_weights` passes `atol=1e-6` and keeps numpy's default
`rtol=1e-5`. -/
def npIsClose (a b rtol atol : ℚ) : Prop :=
  |a - b| ≤ atol + rtol * |b|

instance (a b rtol atol : ℚ) : Decidable (npIsClose a b rtol atol) :=
  inferInstanceAs (Decidable (_ ≤ _))

/-- `validate_weights` from `risk_scoring.py`: raises `ValueError` (modelled
as `Except.error`) unless `np.isclose(sum(weights.values()), 1.0, atol=1e-6)`,
otherwise returns `True`. -/
def validate_weights (w : RiskWeights) : Except String Bool :=
  if npIsClose w.total 1 (1/100000) (1/1000000) then
    Except.ok true
  else
    Except.error "Risk weights must sum to 1.0"

/-- One row of the six filled sub-score columns fed to the composite step. -/
structure SubScores where
  urban_density_score : ℚ
  climate_anomaly_score : ℚ
  seismic_risk_score : ℚ
  fire_risk_score : ℚ
  flood_risk_score : ℚ
  coastal_risk_score : ℚ
deriving DecidableEq, Repr

/-- One row of the merged sub-score columns before `fillna(0)`; `none`
models a NaN cell. -/
structure SubScoresOpt where
  urban_density_score : Option ℚ
  climate_anomaly_score : Option ℚ
  seismic_risk_score : Option ℚ
  fire_risk_score : Option ℚ
  flood_risk_score : Option ℚ
  coastal_risk_score : Option ℚ
deriving DecidableEq, Repr

/-- The per-column `scores_df[col].fillna(0)` in `compute_composite_score`. -/
def fillScores (s : SubScoresOpt) : SubScores :=
  { urban_density_score := s.urban_density_score.getD 0
    climate_anomaly_score := s.climate_anomaly_score.getD 0
    seismic_risk_score := s.seismic_risk_score.getD 0
    fire_risk_score := s.fire_risk_score.getD 0
    flood_risk_score := s.flood_risk_score.getD 0
    coastal_risk_score := s.coastal_risk_score.getD 0 }

/-- `pandas.Series.clip(lo, hi)` on a single cell. -/
def clip (x lo hi : ℚ) : ℚ := min (max x lo) hi

/-- The weighted sum of the six sub-scores in `compute_composite_score`. -/
def weightedSum (w : RiskWeights) (s : SubScores) : ℚ :=
  s.urban_density_score * w.urban_density +
    s.climate_anomaly_score * w.climate_anomaly +
    s.seismic_risk_score * w.seismic_risk +
    s.fire_risk_score * w.fire_risk +
    s.flood_risk_score * w.flood_risk +
    s.coastal_risk_score * w.coastal_risk

/-- `composite_risk_score` column: weighted sum clipped to `[0, 1]`. -/
def composite_risk_score (w : RiskWeights) (s : SubScores) : ℚ :=
  clip (weightedSum w s) 0 1

/-- `pd.cut(x, bins=[b0,b1,b2,b3,b4], labels=[low,medium,high,critical],
include_lowest=True)` on one value: the first bin is the closed interval
`[b0, b1]`, the others are half-open `(b_i, b_{i+1}]`; values outside the
bins get NaN (`none`). -/
def pdCut4 (b0 b1 b2 b3 b4 x : ℚ) : Option RiskLevel :=
  if b0 ≤ x ∧ x ≤ b1 then some RiskLevel.low
  else if b1 < x ∧ x ≤ b2 then some RiskLevel.medium
  else if b2 < x ∧ x ≤ b3 then some RiskLevel.high
  else if b3 < x ∧ x ≤ b4 then some RiskLevel.critical
  else none

/-- `RISK_BINS` from `config/settings.py`. -/
def RISK_BINS : List ℚ := [0, 4/10, 6/10, 8/10, 1]

/-- The risk-level partition hard-coded in `compute_composite_score`
(`bins=[0, 0.25, 0.50, 0.75, 1.0]`). -/
def risk_level_code (x : ℚ) : Option RiskLevel :=
  pdCut4 0 (25/100) (50/100) (75/100) 1 x

/-- The risk-level partition declared by `RISK_BINS`/`RISK_LABELS` in
configuration, read with the same `pd.cut` semantics. -/
def risk_level_config (x : ℚ) : Option RiskLevel :=
  pdCut4 (RISK_BINS.getD 0 0) (RISK_BINS.getD 1 0) (RISK_BINS.getD 2 0)
    (RISK_BINS.getD 3 0) (RISK_BINS.getD 4 0) x

/-- `compute_composite_score`: validates the weights (raising on failure),
fills NaN sub-scores with 0, computes the clipped weighted composite and the
binned risk level for every row. -/
def compute_composite_score (w : RiskWeights) (rows : List SubScoresOpt) :
    Except String (List (SubScores × ℚ × Option RiskLevel)) :=
  match validate_weights w with
  | Except.error e => Except.error e
  | Except.ok _ =>
      Except.ok (rows.map fun r =>
        let s := fillScores r
        let c := composite_risk_score w s
        (s, c, risk_level_code c))

/-- The stages of `calculate_all_risk_scores`, in program order. -/
inductive Stage where
  | urban
  | climate
  | seismic
  | fire
  | flood
  | coastal
  | composite
  | upsert
deriving DecidableEq, Repr

/-- The six sub-score stages executed first by `calculate_all_risk_scores`. -/
def subScoreStages : List Stage :=
  [Stage.urban, Stage.climate, Stage.seismic, Stage.fire, Stage.flood,
    Stage.coastal]

/-- `calculate_all_risk_scores`: computes the six sub-score stages, merges
them, then calls `compute_composite_score` (which validates the weights and
may raise), and only on success upserts the results.  The first component
records which stages ran, in order. -/
def calculate_all_risk_scores (w : RiskWeights) (rows : List SubScoresOpt) :
    List Stage × Except String (List (SubScores × ℚ × Option RiskLevel)) :=
  match compute_composite_score w rows with
  | Except.error e => (subScoreStages ++ [Stage.composite], Except.error e)
  | Except.ok out =>
      (subScoreStages ++ [Stage.composite, Stage.upsert], Except.ok out)

/-- The all-zero sub-score row. -/
def zeroScores : SubScores := ⟨0, 0, 0, 0, 0, 0⟩

/-- The all-one sub-score row. -/
def oneScores : SubScores := ⟨1, 1, 1, 1, 1, 1⟩

/-! ### Persisted risk records and the anomaly-detection writing pass -/

/-- A row of the `risk_scores` table (`src/db/models.py` `RiskScore`),
restricted to the fields touched or framed by the two writing passes. -/
structure RiskRecord where
  site_id : ℤ
  urban_density_score : ℚ
  climate_anomaly_score : ℚ
  seismic_risk_score : ℚ
  fire_risk_score : ℚ
  flood_risk_score : ℚ
  coastal_risk_score : ℚ
  composite_risk_score : ℚ
  risk_level : String
  isolation_forest_score : Option ℚ
  is_anomaly : Option Bool
deriving DecidableEq, Repr

/-- Everything in a `RiskRecord` except the two anomaly fields. -/
def RiskRecord.frame (r : RiskRecord) :
    ℤ × ℚ × ℚ × ℚ × ℚ × ℚ × ℚ × ℚ × String :=
  (r.site_id, r.urban_density_score, r.climate_anomaly_score,
    r.seismic_risk_score, r.fire_risk_score, r.flood_risk_score,
    r.coastal_risk_score, r.composite_risk_score, r.risk_level)

/-- One row of the anomaly-result DataFrame: `site_id`, `anomaly_score`,
`is_anomaly`. -/
structure AnomalyRow where
  site_id : ℤ
  anomaly_score : ℚ
  is_anomaly : Bool
deriving DecidableEq, Repr

/-- The body of the `if risk_score:` branch in `update_anomaly_flags`:
only `isolation_forest_score` and `is_anomaly` are assigned. -/
def setAnomalyFields (row : AnomalyRow) (r : RiskRecord) : RiskRecord :=
  { r with
    isolation_forest_score := some row.anomaly_score
    is_anomaly := some row.is_anomaly }

/-- `session.query(RiskScore).filter_by(site_id=...).first()` followed by a
mutation: apply `f` to the first element satisfying `p`, keep the rest. -/
def updateFirst (p : RiskRecord → Bool) (f : RiskRecord → RiskRecord) :
    List RiskRecord → List RiskRecord
  | [] => []
  | r :: rs => if p r then f r :: rs else r :: updateFirst p f rs

/-- `update_anomaly_flags` from `anomaly_detection.py`: for each DataFrame
row, find the risk record with that `site_id` (if any) and set only its two
anomaly fields. -/
def update_anomaly_flags (rows : List AnomalyRow) (db : List RiskRecord) :
    List RiskRecord :=
  rows.foldl
    (fun acc row =>
      updateFirst (fun r => decide (r.site_id = row.site_id))
        (setAnomalyFields row) acc)
    db

/-! ### CRS-transformation self-check -/

/-- The `expected_distances` table of `validate_crs_transformation`:
Paris–London expects 340–350 km, Rome–Athens expects 1050–1150 km. -/
def expected_distances : List (ℚ × ℚ) := [(340, 350), (1050, 1150)]

/-- The per-pair range test `min_km <= distance_km <= max_km`. -/
def checkRange (minKm maxKm d : ℚ) : Bool :=
  decide (minKm ≤ d ∧ d ≤ maxKm)

/-- `validate_crs_transformation` from `spatial_join.py`, as a function of
the two projected planar distances (km): folds over the expected-distance
table with a `validation_passed` flag that is cleared whenever a distance is
out of its range. -/
def validate_crs_transformation (dParisLondonKm dRomeAthensKm : ℚ) : Bool :=
  (List.zip expected_distances [dParisLondonKm, dRomeAthensKm]).foldl
    (fun passed p => if checkRange p.1.1 p.1.2 p.2 then passed else false)
    true

/-! ### Anomaly detection (isolation forest)

`detect_risk_anomalies` wires `sklearn.ensemble.IsolationForest` to a fixed
`random_state`; the library itself is not part of this repository. -/

/-- Modelled from the spec: the random source of the isolation-style
ensemble of §4.6 is a pseudo-random generator fully determined by the fixed
seed; modelled as a 32-bit linear congruential generator. -/
def lcg (s : Nat) : Nat := (1664525 * s + 1013904223) % 4294967296

/-- A pseudo-random rational in `[0, 1)` drawn from an LCG state. -/
def ratFromSeed (s : Nat) : ℚ := ((s % 4294967296 : ℕ) : ℚ) / 4294967296

/-- An isolation tree: random axis-aligned splits, leaves record the number
of isolated points. -/
inductive ITree where
  | leaf (size : Nat)
  | node (feat : Nat) (threshold : ℚ) (lo hi : ITree)
deriving DecidableEq, Repr

/-- Feature `i` of a sample (0 outside the feature vector, as the six-column
matrix is rectangular). -/
def featVal (x : List ℚ) (i : Nat) : ℚ := x.getD i 0

/-- Column `i` of the feature matrix. -/
def colVals (X : List (List ℚ)) (i : Nat) : List ℚ :=
  X.map (fun x => featVal x i)

/-- Minimum of a rational list (0 for the empty list). -/
def qmin : List ℚ → ℚ
  | [] => 0
  | x :: xs => xs.foldl min x

/-- Maximum of a rational list (0 for the empty list). -/
def qmax : List ℚ → ℚ
  | [] => 0
  | x :: xs => xs.foldl max x

/-- Modelled from the spec: one isolation tree of §4.6 — repeatedly pick a
random feature and a random split between its observed minimum and maximum,
partition, and recurse until points are isolated (or the depth budget is
spent).  Returns the tree and the advanced generator state. -/
def buildTree : Nat → Nat → List (List ℚ) → Nat → ITree × Nat
  | 0, _, x, s => (ITree.leaf x.length, s)
  | fuel + 1, nfeat, x, s =>
      if x.length ≤ 1 then (ITree.leaf x.length, s)
      else
        let s1 := lcg s
        let f := s1 % nfeat
        let s2 := lcg s1
        let cv := colVals x f
        let t := qmin cv + ratFromSeed s2 * (qmax cv - qmin cv)
        let xl := x.filter (fun v => decide (featVal v f ≤ t))
        let xr := x.filter (fun v => decide (t < featVal v f))
        let bl := buildTree fuel nfeat xl s2
        let br := buildTree fuel nfeat xr bl.2
        (ITree.node f t bl.1 br.1, br.2)

/-- Path length of a sample through an isolation tree. -/
def pathLength (x : List ℚ) : ITree → ℚ
  | ITree.leaf _ => 0
  | ITree.node f t l r =>
      1 + (if featVal x f ≤ t then pathLength x l else pathLength x r)

/-- Modelled from the spec: the ensemble of §4.6 — `n_estimators` isolation
trees grown from consecutive states of the seeded generator. -/
def buildForest : Nat → Nat → List (List ℚ) → Nat → List ITree
  | 0, _, _, _ => []
  | n + 1, nfeat, x, s =>
      let b := buildTree x.length nfeat x s
      b.1 :: buildForest n nfeat x (lcg b.2)

/-- Modelled from the spec: the continuous anomaly score of §4.6 — the
average isolation depth over the ensemble (lower = more anomalous, matching
`decision_function`). -/
def isolationForestScores (n_estimators random_state : Nat)
    (x : List (List ℚ)) : List ℚ :=
  let forest := buildForest n_estimators 6 x random_state
  x.map (fun v => (forest.map (pathLength v)).sum / (n_estimators : ℚ))

/-- Number of scores strictly below `c`. -/
def countBelow (scores : List ℚ) (c : ℚ) : Nat :=
  (scores.filter (fun s => decide (s < c))).length

/-- `detect_risk_anomalies` from `anomaly_detection.py`: fit the seeded
isolation forest on the matrix and return the continuous scores together
with the `-1`/`1` labels, where the bottom `contamination` fraction of the
scores is labelled `-1`. -/
def detect_risk_anomalies (x : List (List ℚ)) (n_estimators : Nat)
    (contamination : ℚ) (random_state : Nat) : List ℚ × List ℤ :=
  let scores := isolationForestScores n_estimators random_state x
  let k := (contamination * (x.length : ℚ)).floor.toNat
  (scores,
    scores.map (fun s => if countBelow scores s < k then (-1 : ℤ) else 1))

/-! ### The log1p + min-max normalizer

Raw magnitudes use transcendental arithmetic (`np.log1p`,
`POWER(10, 1.5*m)`), so this part of the embedding lives in `ℝ`.  A cell of
a raw pandas column is `Option ℝ`, with `none` for NaN. -/

/-- `np.log1p`. -/
noncomputable def log1p (x : ℝ) : ℝ := Real.log (1 + x)

/-- The non-NaN cells of a column, in order. -/
def someVals (xs : List (Option ℝ)) : List ℝ := xs.filterMap id

/-- Minimum of a real list (0 for the empty list, which never occurs where
this is used). -/
noncomputable def listMin : List ℝ → ℝ
  | [] => 0
  | x :: xs => xs.foldl min x

/-- Maximum of a real list (0 for the empty list). -/
noncomputable def listMax : List ℝ → ℝ
  | [] => 0
  | x :: xs => xs.foldl max x

/-- `pandas.Series.max()`: NaN-skipping maximum, NaN (`none`) when every
cell is NaN. -/
noncomputable def pandasMax (xs : List (Option ℝ)) : Option ℝ :=
  match someVals xs with
  | [] => none
  | y :: ys => some (ys.foldl max y)

/-- sklearn's `_handle_zeros_in_scale`: a zero data range is replaced by 1
so that a constant column scales to 0 instead of dividing by zero. -/
noncomputable def handleZerosInScale (r : ℝ) : ℝ :=
  if r = 0 then 1 else r

/-- `_log_minmax_scale` from `risk_scoring.py`: if the raw column's
(NaN-skipping) maximum is 0 or the column is all NaN, the score column is
all zeros; otherwise apply `np.log1p` cellwise and rescale with
`MinMaxScaler` fitted on the non-NaN log values (NaN cells stay NaN through
both steps, exactly as in numpy/sklearn). -/
noncomputable def _log_minmax_scale (xs : List (Option ℝ)) :
    List (Option ℝ) :=
  if pandasMax xs = some 0 ∨ someVals xs = [] then
    xs.map (fun _ => some 0)
  else
    let logs := xs.map (Option.map log1p)
    let lo := listMin (someVals logs)
    let hi := listMax (someVals logs)
    let scale := handleZerosInScale (hi - lo)
    logs.map (Option.map (fun v => (v - lo) / scale))

/-- A normalized sub-score column as stored after a run: remaining NaN cells
are filled with 0 by `calculate_all_risk_scores` / `compute_composite_score`
before the upsert writes them. -/
noncomputable def storedSubScores (xs : List (Option ℝ)) : List ℝ :=
  (_log_minmax_scale xs).map (fun o => o.getD 0)

/-- The stored coastal sub-score: `COALESCE(coastal_risk_score, 0)` followed
by `.clip(0, 1)` in `compute_coastal_risk_score`. -/
def coastalStored (e : Option ℚ) : ℚ := clip (e.getD 0) 0 1

/-! ### Seismic per-event energy -/

/-- The per-event Gutenberg–Richter contribution in
`compute_seismic_risk_score`:
`POWER(10, 1.5 * magnitude) / POWER(GREATEST(distance_km, 0.1), 2)`. -/
noncomputable def seismicTerm (magnitude distanceKm : ℝ) : ℝ :=
  (10 : ℝ) ^ ((3 / 2 : ℝ) * magnitude) / max distanceKm (1 / 10) ^ 2

/-- The summed raw seismic magnitude of a site over its radius-bounded
events, each given as (magnitude, distance in km). -/
noncomputable def totalEnergy (events : List (ℝ × ℝ)) : ℝ :=
  (events.map (fun e => seismicTerm e.1 e.2)).sum

/-! ## Theorems -/

/-! ### Weight validation (claims C3, C10, C5) -/

/-- The condition actually tested by `validate_weights`:
`np.isclose(total, 1.0, atol=1e-6)` keeps numpy's default `rtol = 1e-5`, so
the effective absolute tolerance around 1 is `1e-6 + 1e-5 = 1.1e-5`. -/
theorem npIsClose_one_iff (t : ℚ) :
    npIsClose t 1 (1/100000) (1/1000000) ↔ |t - 1| ≤ 11/1000000 := by
  unfold npIsClose
  rw [abs_one]
  constructor <;> intro h <;> linarith

/-- Unfolding helper: `validate_weights` returns `True` exactly when the
sum is within the effective tolerance `1.1e-5` of 1. -/
theorem validate_weights_ok_iff (w : RiskWeights) :
    validate_weights w = Except.ok true ↔ |w.total - 1| ≤ 11/1000000 := by
  unfold validate_weights
  by_cases hc : npIsClose w.total 1 (1/100000) (1/1000000)
  · rw [if_pos hc]
    rw [npIsClose_one_iff] at hc
    simp [hc]
  · rw [if_neg hc]
    rw [npIsClose_one_iff] at hc
    simp [hc]

/-- Unfolding helper: `validate_weights` raises exactly when the sum is
further than `1.1e-5` from 1. -/
theorem validate_weights_error_iff (w : RiskWeights) :
    (∃ e, validate_weights w = Except.error e) ↔
      11/1000000 < |w.total - 1| := by
  unfold validate_weights
  by_cases hc : npIsClose w.total 1 (1/100000) (1/1000000)
  · rw [if_pos hc]
    rw [npIsClose_one_iff] at hc
    constructor
    · rintro ⟨e, he⟩; exact absurd he (by simp)
    · intro hlt; linarith
  · rw [if_neg hc]
    rw [npIsClose_one_iff] at hc
    push_neg at hc
    exact ⟨fun _ => hc, fun _ => ⟨_, rfl⟩⟩

/-- Claim C10 (amended): `validate_weights` returns `True` exactly when the
weight values sum to 1 within `1e-6 + 1e-5·|1| = 1.1e-5` (the `atol` passed
to `np.isclose` plus numpy's default `rtol`), and raises `ValueError`
exactly when the sum is further from 1 than that; no individual weight is
sign-checked, so negative weights summing to 1 are accepted. -/
theorem validate_weights_characterization (w : RiskWeights) :
    (validate_weights w = Except.ok true ↔ |w.total - 1| ≤ 11/1000000) ∧
    ((∃ e, validate_weights w = Except.error e) ↔
      11/1000000 < |w.total - 1|) :=
  ⟨validate_weights_ok_iff w, validate_weights_error_iff w⟩

/-- Counterexample to claim C10 as stated: these weights sum to
`1 - 7e-6`, which differs from 1 by more than the claimed `1e-6` absolute
tolerance, yet `validate_weights` accepts them (returns `True`, no
`ValueError`). -/
theorem validate_weights_accepts_beyond_atol :
    (1/1000000 : ℚ) <
      |RiskWeights.total ⟨1/4, 1/5, 1/5, 3/20, 1/10 - 7/1000000, 1/10⟩ - 1| ∧
    validate_weights ⟨1/4, 1/5, 1/5, 3/20, 1/10 - 7/1000000, 1/10⟩
      = Except.ok true := by
  have htot : RiskWeights.total ⟨1/4, 1/5, 1/5, 3/20, 1/10 - 7/1000000, 1/10⟩
      = 1 - 7/1000000 := by
    norm_num [RiskWeights.total]
  constructor
  · rw [htot, lt_abs]
    right
    norm_num
  · rw [validate_weights_ok_iff, htot, abs_le]
    constructor <;> norm_num

/-- Witness for C10: the negative weight `-1/2` passes validation because
the six values sum to exactly 1 and non-negativity is never checked. -/
theorem validate_weights_negative_witness :
    RiskWeights.urban_density ⟨-1/2, 1/2, 3/10, 3/10, 1/5, 1/5⟩ < 0 ∧
    validate_weights ⟨-1/2, 1/2, 3/10, 3/10, 1/5, 1/5⟩ = Except.ok true :=
  ⟨by norm_num,
    (validate_weights_characterization ⟨-1/2, 1/2, 3/10, 3/10, 1/5, 1/5⟩).1.mpr
      (by norm_num [RiskWeights.total])⟩

/-- Claim C3 (amended): when the weights sum to more than `1.1e-5` away
from 1 (the tolerance actually enforced: `atol=1e-6` plus numpy's default
`rtol=1e-5`), the scoring run fails with `ValueError`; the failure happens
inside the composite stage, after all six sub-score stages have already
run, but before any result is upserted. -/
theorem weights_error_aborts_after_subscores_before_upsert
    (w : RiskWeights) (rows : List SubScoresOpt)
    (h : 11/1000000 < |w.total - 1|) :
    (∃ e, (calculate_all_risk_scores w rows).2 = Except.error e) ∧
    Stage.upsert ∉ (calculate_all_risk_scores w rows).1 ∧
    ∀ st ∈ subScoreStages, st ∈ (calculate_all_risk_scores w rows).1 := by
  have hv : validate_weights w
      = Except.error "Risk weights must sum to 1.0" := by
    unfold validate_weights
    rw [if_neg]
    rw [npIsClose_one_iff]
    linarith
  have hrun : calculate_all_risk_scores w rows
      = (subScoreStages ++ [Stage.composite],
          Except.error "Risk weights must sum to 1.0") := by
    unfold calculate_all_risk_scores compute_composite_score
    rw [hv]
  rw [hrun]
  refine ⟨⟨_, rfl⟩, ?_, ?_⟩
  · decide
  · decide

/-- Witness for C3 (amended): concrete invalid weights (summing to 1.1)
make the run error out after the six sub-score stages and never reach the
upsert stage. -/
theorem weights_error_abort_witness :
    (∃ e, (calculate_all_risk_scores ⟨3/10, 1/5, 1/5, 1/5, 1/10, 1/10⟩ []).2
        = Except.error e) ∧
    Stage.upsert ∉
      (calculate_all_risk_scores ⟨3/10, 1/5, 1/5, 1/5, 1/10, 1/10⟩ []).1 ∧
    ∀ st ∈ subScoreStages,
      st ∈ (calculate_all_risk_scores ⟨3/10, 1/5, 1/5, 1/5, 1/10, 1/10⟩ []).1 :=
  weights_error_aborts_after_subscores_before_upsert
    ⟨3/10, 1/5, 1/5, 1/5, 1/10, 1/10⟩ []
    (by
      have htot : RiskWeights.total ⟨3/10, 1/5, 1/5, 1/5, 1/10, 1/10⟩
          = 1 + 1/10 := by norm_num [RiskWeights.total]
      rw [htot, lt_abs]
      left
      norm_num)

/-- Counterexample to claim C3 as stated: weights summing to `1 + 5e-6`
violate the claimed `1e-6` tolerance, yet the run completes without any
error and reaches the upsert stage (and all six sub-score stages ran before
the validation point in any case). -/
theorem invalid_weights_within_rtol_accepted :
    (1/1000000 : ℚ) <
      |RiskWeights.total ⟨1/4 + 1/200000, 1/5, 1/5, 3/20, 1/10, 1/10⟩ - 1| ∧
    (calculate_all_risk_scores ⟨1/4 + 1/200000, 1/5, 1/5, 3/20, 1/10, 1/10⟩
        []).2 = Except.ok [] ∧
    Stage.upsert ∈
      (calculate_all_risk_scores ⟨1/4 + 1/200000, 1/5, 1/5, 3/20, 1/10, 1/10⟩
        []).1 := by
  have htot : RiskWeights.total ⟨1/4 + 1/200000, 1/5, 1/5, 3/20, 1/10, 1/10⟩
      = 1 + 1/200000 := by norm_num [RiskWeights.total]
  have hok : validate_weights ⟨1/4 + 1/200000, 1/5, 1/5, 3/20, 1/10, 1/10⟩
      = Except.ok true := by
    rw [validate_weights_ok_iff, htot, abs_le]
    constructor <;> norm_num
  have hrun : calculate_all_risk_scores
        ⟨1/4 + 1/200000, 1/5, 1/5, 3/20, 1/10, 1/10⟩ []
      = (subScoreStages ++ [Stage.composite, Stage.upsert], Except.ok []) := by
    unfold calculate_all_risk_scores compute_composite_score
    rw [hok]
    rfl
  refine ⟨?_, ?_, ?_⟩
  · rw [htot, lt_abs]
    left
    norm_num
  · rw [hrun]
  · rw [hrun]
    decide

/-! ### Composite fixed points (claim C5) -/

/-- Claim C5 (amended): with any weights accepted by `validate_weights`,
all-zero sub-scores give composite exactly 0 and level `low`; all-one
sub-scores give a composite equal to the clipped weight total
`clip(Σw, 0, 1)` — hence within `1.1e-5` of 1 and always levelled
`critical`, but equal to exactly 1.0 if and only if the weights sum to at
least 1 (in particular when they sum to exactly 1, as the shipped
`RISK_WEIGHTS` do). -/
theorem composite_fixed_points (w : RiskWeights)
    (h : validate_weights w = Except.ok true) :
    composite_risk_score w zeroScores = 0 ∧
    risk_level_code (composite_risk_score w zeroScores)
      = some RiskLevel.low ∧
    composite_risk_score w oneScores = clip w.total 0 1 ∧
    1 - 11/1000000 ≤ composite_risk_score w oneScores ∧
    composite_risk_score w oneScores ≤ 1 ∧
    risk_level_code (composite_risk_score w oneScores)
      = some RiskLevel.critical ∧
    (composite_risk_score w oneScores = 1 ↔ 1 ≤ w.total) ∧
    (w.total = 1 → composite_risk_score w oneScores = 1) := by
  rw [validate_weights_ok_iff] at h
  rw [abs_le] at h
  have hzero : composite_risk_score w zeroScores = 0 := by
    unfold composite_risk_score weightedSum clip zeroScores
    norm_num
  have hsum : weightedSum w oneScores = w.total := by
    unfold weightedSum oneScores RiskWeights.total
    ring
  have hone : composite_risk_score w oneScores = min w.total 1 := by
    unfold composite_risk_score clip
    rw [hsum, max_eq_left (by linarith)]
  have hclip : composite_risk_score w oneScores = clip w.total 0 1 := by
    rw [hone]
    unfold clip
    rw [max_eq_left (by linarith)]
  have hlow : 1 - 11/1000000 ≤ min w.total 1 := le_min (by linarith) (by norm_num)
  have hhigh : min w.total 1 ≤ 1 := min_le_right _ _
  have hiff : composite_risk_score w oneScores = 1 ↔ 1 ≤ w.total := by
    rw [hone]
    constructor
    · intro he
      have hmle : min w.total 1 ≤ w.total := min_le_left _ _
      rw [he] at hmle
      exact hmle
    · intro h1
      exact min_eq_right h1
  refine ⟨hzero, ?_, hclip, ?_, ?_, ?_, hiff, ?_⟩
  · rw [hzero]
    unfold risk_level_code pdCut4
    norm_num
  · rw [hone]; exact hlow
  · rw [hone]; exact hhigh
  · rw [hone]
    unfold risk_level_code pdCut4
    rw [if_neg (by push_neg; intro _; linarith),
      if_neg (by push_neg; intro _; linarith),
      if_neg (by push_neg; intro _; linarith),
      if_pos ⟨by linarith, hhigh⟩]
  · intro ht
    exact hiff.mpr (le_of_eq ht.symm)

/-- Witness for C5: the shipped `RISK_WEIGHTS` validate, all-zero
sub-scores give composite 0 / level `low`, the all-one composite equals
the clipped weight total, and since `RISK_WEIGHTS.total` is exactly 1 the
all-one row gives composite exactly 1 / level `critical`. -/
theorem composite_fixed_points_witness :
    composite_risk_score RISK_WEIGHTS zeroScores = 0 ∧
    risk_level_code (composite_risk_score RISK_WEIGHTS zeroScores)
      = some RiskLevel.low ∧
    composite_risk_score RISK_WEIGHTS oneScores
      = clip RISK_WEIGHTS.total 0 1 ∧
    composite_risk_score RISK_WEIGHTS oneScores = 1 ∧
    risk_level_code (composite_risk_score RISK_WEIGHTS oneScores)
      = some RiskLevel.critical := by
  have hok : validate_weights RISK_WEIGHTS = Except.ok true := by
    rw [validate_weights_ok_iff]
    have : RISK_WEIGHTS.total = 1 := by norm_num [RiskWeights.total, RISK_WEIGHTS]
    rw [this]
    norm_num
  obtain ⟨h0, hl0, hclip, -, -, hl1, hiff, -⟩ :=
    composite_fixed_points RISK_WEIGHTS hok
  exact ⟨h0, hl0, hclip,
    hiff.mpr (by norm_num [RiskWeights.total, RISK_WEIGHTS]), hl1⟩

/-- Counterexample to claim C5 as stated: the weights below sum to
`1 - 1e-6`, which is "summing to 1 within tolerance" under both the claimed
`1e-6` tolerance and the enforced `1.1e-5` one (`validate_weights` accepts
them), yet with all six sub-scores equal to 1.0 the composite score is
`1 - 1e-6`, not 1.0 (the risk level is still `critical`). -/
theorem all_ones_composite_below_one_for_valid_weights :
    validate_weights ⟨1/4 - 1/1000000, 1/5, 1/5, 3/20, 1/10, 1/10⟩
      = Except.ok true ∧
    composite_risk_score ⟨1/4 - 1/1000000, 1/5, 1/5, 3/20, 1/10, 1/10⟩
      oneScores = 1 - 1/1000000 ∧
    (1 - 1/1000000 : ℚ) ≠ 1 := by
  have htot : RiskWeights.total ⟨1/4 - 1/1000000, 1/5, 1/5, 3/20, 1/10, 1/10⟩
      = 1 - 1/1000000 := by norm_num [RiskWeights.total]
  refine ⟨?_, ?_, by norm_num⟩
  · rw [validate_weights_ok_iff, htot, abs_le]
    constructor <;> norm_num
  · unfold composite_risk_score weightedSum clip oneScores
    norm_num

/-! ### Risk-level partitions (claim C2) -/

/-- Evaluation of `pd.cut` on the first (closed) bin. -/
theorem pdCut4_low {b0 b1 b2 b3 b4 x : ℚ} (h0 : b0 ≤ x) (h1 : x ≤ b1) :
    pdCut4 b0 b1 b2 b3 b4 x = some RiskLevel.low := by
  unfold pdCut4
  rw [if_pos ⟨h0, h1⟩]

/-- Evaluation of `pd.cut` on the second bin. -/
theorem pdCut4_medium {b0 b1 b2 b3 b4 x : ℚ} (h1 : b1 < x) (h2 : x ≤ b2) :
    pdCut4 b0 b1 b2 b3 b4 x = some RiskLevel.medium := by
  unfold pdCut4
  rw [if_neg (fun hc => absurd hc.2 (not_le.mpr h1)), if_pos ⟨h1, h2⟩]

/-- Evaluation of `pd.cut` on the third bin. -/
theorem pdCut4_high {b0 b1 b2 b3 b4 x : ℚ} (hb : b1 ≤ b2) (h1 : b2 < x)
    (h2 : x ≤ b3) :
    pdCut4 b0 b1 b2 b3 b4 x = some RiskLevel.high := by
  unfold pdCut4
  rw [if_neg (fun hc => absurd hc.2 (not_le.mpr (lt_of_le_of_lt hb h1))),
    if_neg (fun hc => absurd hc.2 (not_le.mpr h1)), if_pos ⟨h1, h2⟩]

/-- Evaluation of `pd.cut` on the fourth bin. -/
theorem pdCut4_critical {b0 b1 b2 b3 b4 x : ℚ} (hb1 : b1 ≤ b3) (hb2 : b2 ≤ b3)
    (h1 : b3 < x) (h2 : x ≤ b4) :
    pdCut4 b0 b1 b2 b3 b4 x = some RiskLevel.critical := by
  unfold pdCut4
  rw [if_neg (fun hc => absurd hc.2 (not_le.mpr (lt_of_le_of_lt hb1 h1))),
    if_neg (fun hc => absurd hc.2 (not_le.mpr (lt_of_le_of_lt hb2 h1))),
    if_neg (fun hc => absurd hc.2 (not_le.mpr h1)), if_pos ⟨h1, h2⟩]

/-- The configured partition with its bin boundaries read off `RISK_BINS`. -/
theorem risk_level_config_eq (x : ℚ) :
    risk_level_config x = pdCut4 0 (4/10) (6/10) (8/10) 1 x := rfl

/-- Counterexample to claim C2: at composite score 0.3 the partition
hard-coded in `compute_composite_score` says `medium` while the partition
declared by `RISK_BINS` in configuration says `low` — the two boundary sets
are inconsistent. -/
theorem risk_bins_disagree_at_0_3 :
    risk_level_code (3/10) = some RiskLevel.medium ∧
    risk_level_config (3/10) = some RiskLevel.low ∧
    risk_level_code (3/10) ≠ risk_level_config (3/10) := by
  have hcode : risk_level_code (3/10) = some RiskLevel.medium := by
    unfold risk_level_code pdCut4
    rw [if_neg (by push_neg; intro _; norm_num), if_pos ⟨by norm_num, by norm_num⟩]
  have hcfg : risk_level_config (3/10) = some RiskLevel.low := by
    unfold risk_level_config RISK_BINS pdCut4
    norm_num
  refine ⟨hcode, hcfg, ?_⟩
  rw [hcode, hcfg]
  simp

/-- Claim C2 (amended): the label partition hard-coded in
`compute_composite_score` (`[0, 0.25, 0.5, 0.75, 1]`) and the one declared
by `RISK_BINS` in configuration (`[0, 0.4, 0.6, 0.8, 1]`) are two different
partitions: on `[0, 1]` they produce the same label exactly on
`[0, 0.25] ∪ (0.4, 0.5] ∪ (0.6, 0.75] ∪ (0.8, 1]`, and disagree on
`(0.25, 0.4] ∪ (0.5, 0.6] ∪ (0.75, 0.8]`. -/
theorem risk_bins_agreement_characterization (x : ℚ)
    (h0 : 0 ≤ x) (h1 : x ≤ 1) :
    risk_level_code x = risk_level_config x ↔
      (x ≤ 25/100 ∨ (4/10 < x ∧ x ≤ 5/10) ∨ (6/10 < x ∧ x ≤ 75/100) ∨
        8/10 < x) := by
  rw [risk_level_config_eq]
  unfold risk_level_code
  rcases le_or_lt x (25/100) with hA | hA
  · rw [pdCut4_low h0 hA, pdCut4_low h0 (by linarith)]
    simp only [true_iff]
    exact Or.inl hA
  rcases le_or_lt x (4/10) with hB | hB
  · rw [pdCut4_medium (by linarith) (by linarith), pdCut4_low h0 hB]
    refine iff_of_false (by simp) ?_
    rintro (h | ⟨ha, hb⟩ | ⟨ha, hb⟩ | h) <;> linarith
  rcases le_or_lt x (5/10) with hC | hC
  · rw [pdCut4_medium (by linarith) (by linarith),
      pdCut4_medium (by linarith) (by linarith)]
    simp only [true_iff]
    exact Or.inr (Or.inl ⟨hB, hC⟩)
  rcases le_or_lt x (6/10) with hD | hD
  · rw [pdCut4_high (by norm_num) (by linarith) (by linarith),
      pdCut4_medium (by linarith) hD]
    refine iff_of_false (by simp) ?_
    rintro (h | ⟨ha, hb⟩ | ⟨ha, hb⟩ | h) <;> linarith
  rcases le_or_lt x (75/100) with hE | hE
  · rw [pdCut4_high (by norm_num) (by linarith) hE,
      pdCut4_high (by norm_num) (by linarith) (by linarith)]
    simp only [true_iff]
    exact Or.inr (Or.inr (Or.inl ⟨hD, hE⟩))
  rcases le_or_lt x (8/10) with hF | hF
  · rw [pdCut4_critical (by norm_num) (by norm_num) (by linarith) h1,
      pdCut4_high (by norm_num) (by linarith) hF]
    refine iff_of_false (by simp) ?_
    rintro (h | ⟨ha, hb⟩ | ⟨ha, hb⟩ | h) <;> linarith
  · rw [pdCut4_critical (by norm_num) (by norm_num) (by linarith) h1,
      pdCut4_critical (by norm_num) (by norm_num) hF h1]
    simp only [true_iff]
    exact Or.inr (Or.inr (Or.inr hF))

/-- Witness for C2 (amended): at composite 0.1 both partitions agree (both
say `low`), matching the agreement region. -/
theorem risk_bins_agreement_witness :
    risk_level_code (1/10) = risk_level_config (1/10) :=
  (risk_bins_agreement_characterization (1/10) (by norm_num) (by norm_num)).mpr
    (Or.inl (by norm_num))

/-! ### CRS-transformation self-check (claim C8) -/

/-- Reduction helper: the self-check passes iff both city-pair distances
are in their expected ranges. -/
theorem validate_crs_transformation_eq (d1 d2 : ℚ) :
    validate_crs_transformation d1 d2
      = (checkRange 340 350 d1 && checkRange 1050 1150 d2) := by
  unfold validate_crs_transformation expected_distances
  cases hc1 : checkRange 340 350 d1 <;>
    cases hc2 : checkRange 1050 1150 d2 <;>
      simp [List.zip, List.foldl, hc1, hc2]

/-- Claim C8 (amended): `validate_crs_transformation` passes exactly when
the projected Paris–London distance lies in the tighter 340–350 km band and
the Rome–Athens distance lies in 1050–1150 km; every accepted Paris–London
distance does lie in the spec's 330–360 km range, but distances in
`[330, 340)` or `(350, 360]` are rejected, so acceptance is not equivalent
to the claimed 330–360 km criterion. -/
theorem crs_check_characterization (d1 d2 : ℚ) :
    (validate_crs_transformation d1 d2 = true ↔
      ((340 ≤ d1 ∧ d1 ≤ 350) ∧ (1050 ≤ d2 ∧ d2 ≤ 1150))) ∧
    (validate_crs_transformation d1 d2 = true → 330 ≤ d1 ∧ d1 ≤ 360) := by
  rw [validate_crs_transformation_eq]
  constructor
  · simp [checkRange]
  · intro hb
    simp only [checkRange, Bool.and_eq_true, decide_eq_true_eq] at hb
    exact ⟨by linarith [hb.1.1], by linarith [hb.1.2]⟩

/-- Witness for C8 (amended): a 344 km Paris–London projection with an
1100 km Rome–Athens projection passes the self-check and lies inside the
spec's 330–360 km band. -/
theorem crs_check_witness :
    validate_crs_transformation 344 1100 = true ∧
    (330 : ℚ) ≤ 344 ∧ (344 : ℚ) ≤ 360 :=
  ⟨(crs_check_characterization 344 1100).1.mpr
      ⟨⟨by norm_num, by norm_num⟩, ⟨by norm_num, by norm_num⟩⟩,
    by norm_num, by norm_num⟩

/-- Counterexample to claim C8 as stated: a projected Paris–London distance
of 335 km lies within the claimed 330–360 km acceptance range (with
Rome–Athens at a healthy 1100 km), yet the self-check fails, because the
code demands 340–350 km. -/
theorem crs_check_rejects_335 :
    validate_crs_transformation 335 1100 = false ∧
    ((330 : ℚ) ≤ 335 ∧ (335 : ℚ) ≤ 360) := by
  refine ⟨?_, by norm_num, by norm_num⟩
  rw [validate_crs_transformation_eq]
  have h1 : checkRange 340 350 335 = false := by
    simp [checkRange]
    norm_num
  rw [h1]
  simp

/-! ### Frame effect of the anomaly pass (claim C7) -/

/-- `updateFirst` leaves every record's frame unchanged when the update
function does. -/
theorem updateFirst_map_frame (p : RiskRecord → Bool)
    (f : RiskRecord → RiskRecord) (hf : ∀ r, (f r).frame = r.frame) :
    ∀ l : List RiskRecord,
      (updateFirst p f l).map RiskRecord.frame = l.map RiskRecord.frame := by
  intro l
  induction l with
  | nil => rfl
  | cons r rs ih =>
      unfold updateFirst
      by_cases hp : p r
      · rw [if_pos hp]
        simp [hf r]
      · rw [if_neg hp]
        simp [ih]

/-- Claim C7: the anomaly writing pass `update_anomaly_flags` changes only
the `isolation_forest_score` and `is_anomaly` fields; for every stored risk
record the site id, the six sub-scores, the composite score and the risk
level are exactly the same after the pass (stated as equality of the frame
projections, record by record). -/
theorem update_anomaly_flags_frame (rows : List AnomalyRow)
    (db : List RiskRecord) :
    (update_anomaly_flags rows db).map RiskRecord.frame
      = db.map RiskRecord.frame := by
  induction rows generalizing db with
  | nil => rfl
  | cons row rest ih =>
      have hstep : update_anomaly_flags (row :: rest) db
          = update_anomaly_flags rest
              (updateFirst (fun r => decide (r.site_id = row.site_id))
                (setAnomalyFields row) db) := rfl
      rw [hstep, ih]
      have hf : ∀ r, ((setAnomalyFields row) r).frame = r.frame := fun r => rfl
      exact updateFirst_map_frame _ (setAnomalyFields row) hf db

/-! ### Determinism of anomaly detection (claim C9) -/

/-- Claim C9: `detect_risk_anomalies` is a pure function of the feature
matrix and the three exposed parameters — the only randomness source of the
isolation forest is the `random_state` argument, which the code pins — so
two runs on an identical matrix with identical ensemble size, contamination
and seed produce identical anomaly scores and identical labels. -/
theorem detect_risk_anomalies_deterministic (x1 x2 : List (List ℚ))
    (n : Nat) (c : ℚ) (s : Nat) (h : x1 = x2) :
    detect_risk_anomalies x1 n c s = detect_risk_anomalies x2 n c s := by
  rw [h]

/-- Witness for C9: two runs on the same concrete three-site score matrix
with the configured parameters (200 trees, contamination 0.1, seed 42)
coincide. -/
theorem detect_risk_anomalies_deterministic_witness :
    detect_risk_anomalies
        [[1, 0, 0, 0, 0, 0], [0, 1, 0, 0, 0, 0], [0, 0, 0, 0, 0, 0]]
        200 (1/10) 42
      = detect_risk_anomalies
          [[1, 0, 0, 0, 0, 0], [0, 1, 0, 0, 0, 0], [0, 0, 0, 0, 0, 0]]
          200 (1/10) 42 :=
  detect_risk_anomalies_deterministic
    [[1, 0, 0, 0, 0, 0], [0, 1, 0, 0, 0, 0], [0, 0, 0, 0, 0, 0]]
    [[1, 0, 0, 0, 0, 0], [0, 1, 0, 0, 0, 0], [0, 0, 0, 0, 0, 0]]
    200 (1/10) 42 rfl

/-! ### List fold bounds for the min-max scaler -/

/-- The starting value bounds a `max`-fold from below. -/
theorem le_foldl_max : ∀ (l : List ℝ) (a : ℝ), a ≤ l.foldl max a := by
  intro l
  induction l with
  | nil => intro a; simp
  | cons x xs ih =>
      intro a
      simp only [List.foldl_cons]
      exact le_trans (le_max_left a x) (ih (max a x))

/-- Every list member bounds a `max`-fold from below. -/
theorem mem_le_foldl_max : ∀ (l : List ℝ) (a y : ℝ), y ∈ l → y ≤ l.foldl max a := by
  intro l
  induction l with
  | nil => intro a y hy; simp at hy
  | cons x xs ih =>
      intro a y hy
      simp only [List.foldl_cons]
      rcases List.mem_cons.mp hy with h | h
      · subst h
        exact le_trans (le_max_right a y) (le_foldl_max xs (max a y))
      · exact ih (max a x) y h

/-- A common upper bound of the start and the members bounds a `max`-fold. -/
theorem foldl_max_le : ∀ (l : List ℝ) (a c : ℝ), a ≤ c → (∀ y ∈ l, y ≤ c) →
    l.foldl max a ≤ c := by
  intro l
  induction l with
  | nil => intro a c ha _; simpa using ha
  | cons x xs ih =>
      intro a c ha hall
      simp only [List.foldl_cons]
      exact ih (max a x) c (max_le ha (hall x (by simp)))
        (fun y hy => hall y (by simp [hy]))

/-- The starting value bounds a `min`-fold from above. -/
theorem foldl_min_le : ∀ (l : List ℝ) (a : ℝ), l.foldl min a ≤ a := by
  intro l
  induction l with
  | nil => intro a; simp
  | cons x xs ih =>
      intro a
      simp only [List.foldl_cons]
      exact le_trans (ih (min a x)) (min_le_left a x)

/-- A `min`-fold is below every list member. -/
theorem foldl_min_le_mem : ∀ (l : List ℝ) (a y : ℝ), y ∈ l →
    l.foldl min a ≤ y := by
  intro l
  induction l with
  | nil => intro a y hy; simp at hy
  | cons x xs ih =>
      intro a y hy
      simp only [List.foldl_cons]
      rcases List.mem_cons.mp hy with h | h
      · subst h
        exact le_trans (foldl_min_le xs (min a y)) (min_le_right a y)
      · exact ih (min a x) y h

/-- A common lower bound of the start and the members bounds a `min`-fold. -/
theorem le_foldl_min : ∀ (l : List ℝ) (a c : ℝ), c ≤ a → (∀ y ∈ l, c ≤ y) →
    c ≤ l.foldl min a := by
  intro l
  induction l with
  | nil => intro a c ha _; simpa using ha
  | cons x xs ih =>
      intro a c ha hall
      simp only [List.foldl_cons]
      exact ih (min a x) c (le_min ha (hall x (by simp)))
        (fun y hy => hall y (by simp [hy]))

/-- Members bound `listMax` from below. -/
theorem le_listMax {l : List ℝ} {y : ℝ} (hy : y ∈ l) : y ≤ listMax l := by
  cases l with
  | nil => simp at hy
  | cons x xs =>
      unfold listMax
      rcases List.mem_cons.mp hy with h | h
      · subst h; exact le_foldl_max xs y
      · exact mem_le_foldl_max xs x y h

/-- `listMax` is below any upper bound of a non-empty list. -/
theorem listMax_le {l : List ℝ} {c : ℝ} (hne : l ≠ [])
    (h : ∀ y ∈ l, y ≤ c) : listMax l ≤ c := by
  cases l with
  | nil => exact absurd rfl hne
  | cons x xs =>
      unfold listMax
      exact foldl_max_le xs x c (h x (by simp)) (fun y hy => h y (by simp [hy]))

/-- `listMin` is below every member. -/
theorem listMin_le {l : List ℝ} {y : ℝ} (hy : y ∈ l) : listMin l ≤ y := by
  cases l with
  | nil => simp at hy
  | cons x xs =>
      unfold listMin
      rcases List.mem_cons.mp hy with h | h
      · subst h; exact foldl_min_le xs y
      · exact foldl_min_le_mem xs x y h

/-- `listMin` is above any lower bound of a non-empty list. -/
theorem le_listMin {l : List ℝ} {c : ℝ} (hne : l ≠ [])
    (h : ∀ y ∈ l, c ≤ y) : c ≤ listMin l := by
  cases l with
  | nil => exact absurd rfl hne
  | cons x xs =>
      unfold listMin
      exact le_foldl_min xs x c (h x (by simp)) (fun y hy => h y (by simp [hy]))

/-- The non-NaN cells of a column mapped cell-wise by `f`. -/
theorem someVals_map_optionMap (f : ℝ → ℝ) (xs : List (Option ℝ)) :
    someVals (xs.map (Option.map f)) = (someVals xs).map f := by
  unfold someVals
  rw [List.filterMap_map, List.map_filterMap]
  rfl

/-- All-`some` columns have themselves as non-NaN cells. -/
theorem someVals_map_some (xs : List ℝ) : someVals (xs.map some) = xs := by
  unfold someVals
  rw [List.filterMap_map]
  simp

/-- `pandas.Series.max()` of a column with at least one non-NaN cell is the
maximum of its non-NaN cells. -/
theorem pandasMax_eq {xs : List (Option ℝ)} (hne : someVals xs ≠ []) :
    pandasMax xs = some (listMax (someVals xs)) := by
  unfold pandasMax listMax
  cases h : someVals xs with
  | nil => exact absurd h hne
  | cons y ys => rfl

/-! ### Bounds of the stored scores (claim C1) -/

/-- Claim C1: every stored normalized sub-score (the five log1p + min-max
scaled columns after the NaN fill, and the clipped coastal column) lies in
`[0, 1]`, and the composite score of any filled sub-score row under any
weights lies in `[0, 1]` — for all raw columns, including all-zero,
NaN-laden and arbitrarily large raw magnitudes, and with no NaN or infinite
value remaining in any stored score. -/
theorem risk_scores_bounded_unit_interval :
    (∀ xs : List (Option ℝ),
      (storedSubScores xs).Forall (fun y => 0 ≤ y ∧ y ≤ 1)) ∧
    (∀ e : Option ℚ, 0 ≤ coastalStored e ∧ coastalStored e ≤ 1) ∧
    (∀ (w : RiskWeights) (s : SubScores),
      0 ≤ composite_risk_score w s ∧ composite_risk_score w s ≤ 1) := by
  refine ⟨?_, ?_, ?_⟩
  · intro xs
    rw [List.forall_iff_forall_mem]
    intro y hy
    unfold storedSubScores _log_minmax_scale at hy
    by_cases hg : pandasMax xs = some 0 ∨ someVals xs = []
    · rw [if_pos hg] at hy
      simp only [List.map_map, List.mem_map, Function.comp] at hy
      obtain ⟨o, -, rfl⟩ := hy
      norm_num
    · rw [if_neg hg] at hy
      simp only [List.map_map, List.mem_map, Function.comp] at hy
      obtain ⟨o, ho, rfl⟩ := hy
      cases o with
      | none => norm_num
      | some v =>
          simp only [Option.map_some', Option.getD_some]
          have hv : log1p v ∈ someVals (xs.map (Option.map log1p)) :=
            List.mem_filterMap.mpr
              ⟨some (log1p v), List.mem_map.mpr ⟨some v, ho, rfl⟩, rfl⟩
          set lo := listMin (someVals (xs.map (Option.map log1p))) with hlo
          set hi := listMax (someVals (xs.map (Option.map log1p))) with hhi
          have h1 : lo ≤ log1p v := listMin_le hv
          have h2 : log1p v ≤ hi := le_listMax hv
          unfold handleZerosInScale
          by_cases hz : hi - lo = 0
          · rw [if_pos hz]
            have hveq : log1p v = lo := le_antisymm (by linarith) h1
            simp [hveq]
          · rw [if_neg hz]
            have hpos : 0 < hi - lo := lt_of_le_of_ne (by linarith) (Ne.symm hz)
            constructor
            · exact div_nonneg (by linarith) (le_of_lt hpos)
            · rw [div_le_one hpos]
              linarith
  · intro e
    unfold coastalStored clip
    constructor
    · exact le_min (le_max_right _ 0) zero_le_one
    · exact min_le_right _ 1
  · intro w s
    unfold composite_risk_score clip
    constructor
    · exact le_min (le_max_right _ 0) zero_le_one
    · exact min_le_right _ 1

/-! ### What the normalizer does to an already-normalized column (claim C4) -/

/-- On a non-empty all-`some` column contained in `[0, 1]` whose observed
minimum is 0 and maximum is 1, `_log_minmax_scale` evaluates pointwise to
`log(1 + x) / log 2`. -/
theorem log_minmax_scale_unit (xs : List ℝ) (h0 : (0 : ℝ) ∈ xs)
    (h1 : (1 : ℝ) ∈ xs) (hb : ∀ x ∈ xs, 0 ≤ x ∧ x ≤ 1) :
    _log_minmax_scale (xs.map some)
      = xs.map (fun x => some (Real.log (1 + x) / Real.log 2)) := by
  have hne : xs ≠ [] := List.ne_nil_of_mem h0
  have hsv : someVals (xs.map some) = xs := someVals_map_some xs
  have hsvne : someVals (xs.map some) ≠ [] := by rw [hsv]; exact hne
  have hmax : listMax xs = 1 :=
    le_antisymm (listMax_le hne (fun y hy => (hb y hy).2)) (le_listMax h1)
  have hguard : ¬(pandasMax (xs.map some) = some 0 ∨
      someVals (xs.map some) = []) := by
    rw [pandasMax_eq hsvne, hsv, hmax]
    simp
    exact hne
  have hlogs : (xs.map some).map (Option.map log1p)
      = (xs.map log1p).map some := by
    rw [List.map_map, List.map_map]
    rfl
  have hsvlogs : someVals ((xs.map some).map (Option.map log1p))
      = xs.map log1p := by
    rw [hlogs, someVals_map_some]
  have hlog1p_zero : log1p 0 = 0 := by
    unfold log1p
    norm_num
  have hlog1p_one : log1p 1 = Real.log 2 := by
    unfold log1p
    norm_num
  have hmono : ∀ x ∈ xs, 0 ≤ log1p x ∧ log1p x ≤ Real.log 2 := by
    intro x hx
    obtain ⟨hx0, hx1⟩ := hb x hx
    constructor
    · rw [← Real.log_one]
      exact Real.log_le_log (by norm_num) (by linarith)
    · rw [show (2 : ℝ) = 1 + 1 by norm_num]
      exact Real.log_le_log (by linarith) (by linarith)
  have hlo : listMin (someVals ((xs.map some).map (Option.map log1p))) = 0 := by
    rw [hsvlogs]
    refine le_antisymm ?_ ?_
    · have : log1p 0 ∈ xs.map log1p := List.mem_map_of_mem log1p h0
      rw [hlog1p_zero] at this
      exact listMin_le this
    · refine le_listMin (by simpa using hne) ?_
      intro y hy
      obtain ⟨x, hx, rfl⟩ := List.mem_map.mp hy
      exact (hmono x hx).1
  have hhi : listMax (someVals ((xs.map some).map (Option.map log1p)))
      = Real.log 2 := by
    rw [hsvlogs]
    refine le_antisymm ?_ ?_
    · refine listMax_le (by simpa using hne) ?_
      intro y hy
      obtain ⟨x, hx, rfl⟩ := List.mem_map.mp hy
      exact (hmono x hx).2
    · have : log1p 1 ∈ xs.map log1p := List.mem_map_of_mem log1p h1
      rw [hlog1p_one] at this
      exact le_listMax this
  have hlog2 : Real.log 2 ≠ 0 := ne_of_gt (Real.log_pos (by norm_num))
  unfold _log_minmax_scale
  rw [if_neg hguard]
  simp only [hlo, hhi, sub_zero]
  unfold handleZerosInScale
  rw [if_neg hlog2]
  rw [List.map_map, List.map_map]
  refine List.map_congr_left ?_
  intro x hx
  simp [log1p]

/-- Claim C4 (amended): re-normalizing a non-empty `[0, 1]` column whose
minimum is 0 and maximum is 1 does not reproduce the column; it yields
`log(1 + x) / log 2` pointwise, which fixes the endpoints (0 maps to 0 and
1 maps to 1) but moves every interior value, so the log1p + min-max
pipeline is idempotent only at the endpoints, not within numerical
tolerance everywhere. -/
theorem log_minmax_endpoint_fixing (xs : List ℝ) (h0 : (0 : ℝ) ∈ xs)
    (h1 : (1 : ℝ) ∈ xs) (hb : ∀ x ∈ xs, 0 ≤ x ∧ x ≤ 1) :
    _log_minmax_scale (xs.map some)
      = xs.map (fun x => some (Real.log (1 + x) / Real.log 2)) ∧
    Real.log (1 + 0) / Real.log 2 = 0 ∧
    Real.log (1 + 1) / Real.log 2 = 1 := by
  refine ⟨log_minmax_scale_unit xs h0 h1 hb, by norm_num, ?_⟩
  rw [show (1 : ℝ) + 1 = 2 by norm_num]
  exact div_self (ne_of_gt (Real.log_pos (by norm_num)))

/-- Witness for C4 (amended): on the two-point column `[0, 1]` the
re-normalization fixes both endpoints. -/
theorem log_minmax_endpoint_witness :
    _log_minmax_scale ([(0 : ℝ), 1].map some)
      = [(0 : ℝ), 1].map (fun x => some (Real.log (1 + x) / Real.log 2)) ∧
    Real.log (1 + 0) / Real.log 2 = 0 ∧
    Real.log (1 + 1) / Real.log 2 = 1 :=
  log_minmax_endpoint_fixing [0, 1] (by simp) (by simp)
    (by
      intro x hx
      rcases List.mem_cons.mp hx with rfl | hx
      · norm_num
      · rcases List.mem_cons.mp hx with rfl | hx
        · norm_num
        · simp at hx)

/-- Counterexample to claim C4 as stated: the column `[0, 1/2, 1]` already
lies in `[0, 1]` with minimum 0 and maximum 1, yet re-normalizing it moves
the middle value to `log(3/2)/log 2`, which exceeds `1/2 + 1/25` — a shift
of more than 0.04, far beyond numerical tolerance. -/
theorem log_minmax_moves_midpoint :
    _log_minmax_scale [some 0, some (1/2), some 1]
      = [some (Real.log (1 + 0) / Real.log 2),
          some (Real.log (1 + 1/2) / Real.log 2),
          some (Real.log (1 + 1) / Real.log 2)] ∧
    1/2 + 1/25 < Real.log (1 + 1/2) / Real.log 2 := by
  constructor
  · have h := log_minmax_scale_unit [0, 1/2, 1] (by simp) (by simp)
      (by
        intro x hx
        rcases List.mem_cons.mp hx with rfl | hx
        · norm_num
        · rcases List.mem_cons.mp hx with rfl | hx
          · norm_num
          · rcases List.mem_cons.mp hx with rfl | hx
            · norm_num
            · simp at hx)
    simpa using h
  · have hlog2 : 0 < Real.log 2 := Real.log_pos (by norm_num)
    rw [show (1 : ℝ) + 1/2 = 3/2 by norm_num, lt_div_iff₀ hlog2]
    have key : Real.log ((2 : ℝ) ^ (27 : ℕ)) < Real.log ((3/2 : ℝ) ^ (50 : ℕ)) :=
      Real.log_lt_log (by positivity) (by norm_num)
    rw [Real.log_pow, Real.log_pow] at key
    push_cast at key
    linarith

/-! ### Seismic raw-magnitude monotonicity (claim C6) -/

/-- Claim C6: for the per-event energy term
`10^(1.5·m) / max(d, 0.1)^2` of `compute_seismic_risk_score`, raising the
magnitude at fixed distance never decreases the term, raising the distance
at fixed magnitude never increases it, and both monotonicities carry over
to the per-site sum over any event list. -/
theorem seismic_energy_monotonicity :
    (∀ m m' d : ℝ, m ≤ m' → seismicTerm m d ≤ seismicTerm m' d) ∧
    (∀ m d d' : ℝ, d ≤ d' → seismicTerm m d' ≤ seismicTerm m d) ∧
    (∀ evs evs' : List (ℝ × ℝ),
      List.Forall₂ (fun e e' => e.1 ≤ e'.1 ∧ e.2 = e'.2) evs evs' →
        totalEnergy evs ≤ totalEnergy evs') ∧
    (∀ evs evs' : List (ℝ × ℝ),
      List.Forall₂ (fun e e' => e.1 = e'.1 ∧ e.2 ≤ e'.2) evs evs' →
        totalEnergy evs' ≤ totalEnergy evs) := by
  have hmaxpos : ∀ d : ℝ, (0 : ℝ) < max d (1/10) := fun d =>
    lt_of_lt_of_le (by norm_num) (le_max_right d (1/10))
  have hterm_m : ∀ m m' d : ℝ, m ≤ m' → seismicTerm m d ≤ seismicTerm m' d := by
    intro m m' d hm
    unfold seismicTerm
    have hc : (0 : ℝ) < max d (1/10) ^ 2 := pow_pos (hmaxpos d) 2
    exact (div_le_div_iff_of_pos_right hc).mpr
      ((Real.rpow_le_rpow_left_iff (by norm_num : (1 : ℝ) < 10)).mpr
        (by linarith))
  have hterm_d : ∀ m d d' : ℝ, d ≤ d' → seismicTerm m d' ≤ seismicTerm m d := by
    intro m d d' hd
    unfold seismicTerm
    exact div_le_div_of_nonneg_left
      (le_of_lt (Real.rpow_pos_of_pos (by norm_num) _))
      (pow_pos (hmaxpos d) 2)
      (pow_le_pow_left₀ (le_of_lt (hmaxpos d)) (max_le_max hd le_rfl) 2)
  refine ⟨hterm_m, hterm_d, ?_, ?_⟩
  · intro evs evs' h
    induction h with
    | nil => simp [totalEnergy]
    | @cons a b l1 l2 h1 h2 ih =>
        unfold totalEnergy at ih ⊢
        simp only [List.map_cons, List.sum_cons]
        refine add_le_add ?_ ih
        obtain ⟨hm, hd⟩ := h1
        rw [show seismicTerm b.1 b.2 = seismicTerm b.1 a.2 by rw [hd]]
        exact hterm_m a.1 b.1 a.2 hm
  · intro evs evs' h
    induction h with
    | nil => simp [totalEnergy]
    | @cons a b l1 l2 h1 h2 ih =>
        unfold totalEnergy at ih ⊢
        simp only [List.map_cons, List.sum_cons]
        refine add_le_add ?_ ih
        obtain ⟨hm, hd⟩ := h1
        rw [show seismicTerm b.1 b.2 = seismicTerm a.1 b.2 by rw [hm]]
        exact hterm_d a.1 a.2 b.2 hd

/-- Witness for C6: concrete events — raising a magnitude-5 event at 30 km
to magnitude 6 raises the term and the site total; moving it from 30 km to
60 km lowers the term. -/
theorem seismic_energy_monotonicity_witness :
    seismicTerm 5 30 ≤ seismicTerm 6 30 ∧
    seismicTerm 5 60 ≤ seismicTerm 5 30 ∧
    totalEnergy [(5, 30)] ≤ totalEnergy [(6, 30)] :=
  ⟨seismic_energy_monotonicity.1 5 6 30 (by norm_num),
    seismic_energy_monotonicity.2.1 5 30 60 (by norm_num),
    seismic_energy_monotonicity.2.2.1 [(5, 30)] [(6, 30)]
      (List.Forall₂.cons ⟨by norm_num, rfl⟩ List.Forall₂.nil)⟩

end UnescoRisk
